import Mathlib

/-!
Verification of the terrain-weathering engine in `src/WeatherMap.js`.

The JavaScript class `WeatheringMap` is embedded shallowly:

* a `TerrainGrid` (`width`, `height`, `cellSize`, `elevationData`) becomes
  `TerrainModel`, with the row-major elevation array represented as a total
  function `ℕ → ℕ → ℝ` indexed `elevationData y x` exactly as `terrain[y][x]`;
* the in-place double loops (`projectWeathering`'s weathering loop,
  `applyErosion`, `applyDeposition`) become folds of a per-cell update over the
  explicit list of visited cells, in the source's visiting order;
* IEEE doubles are modelled as real numbers, `Math.atan`/`Math.sqrt`/`Math.sin`
  as `Real.arctan`/`Real.sqrt`/`Real.sin`, and `Math.atan2 (y, x)` as the
  argument of the complex number `x + y·i`;
* `Math.random()` inside `calculateFlowDirections` is modelled by an explicit
  oracle `rand : ℕ → ℕ → ℕ` supplying the random draw for each cell;
* the mutable session object (`this.datasets.elevation`,
  `this.weatheringRates`) becomes the record `WeatheringMapState`.

For the frame property (the original elevation dataset is never mutated) the
mutation is additionally made observable through a tiny store model: elevation
buffers live in a `Store` addressed by `bufferId`, `cloneTerrainModel`
allocates a fresh buffer, and all writes go through the owning reference.
-/

/-- Terrain grid as produced by `fetchElevationData` and consumed everywhere:
`width`, `height`, `cellSize` and the row-major elevation surface, read as
`elevationData y x` for `terrain[y][x]`. -/
structure TerrainModel where
  width : ℕ
  height : ℕ
  cellSize : ℝ
  elevationData : ℕ → ℕ → ℝ

/-- Write `terrainModel.elevationData[y][x] = v`, leaving every other cell
unchanged. -/
def updateCell (m : TerrainModel) (x y : ℕ) (v : ℝ) : TerrainModel :=
  { m with elevationData := fun y0 x0 => if y0 = y ∧ x0 = x then v else m.elevationData y0 x0 }

/-- Cells visited by `for (x = 0; x < width; x++) for (y = 0; y < height; y++)`
(the order of `projectWeathering`'s weathering loop). -/
def cellsXY (w h : ℕ) : List (ℕ × ℕ) :=
  (List.range w).flatMap fun x => (List.range h).map fun y => (x, y)

/-- Cells visited by `for (y = 0; y < height; y++) for (x = 0; x < width; x++)`
(the order of `applyErosion` and `applyDeposition`). -/
def cellsYX (w h : ℕ) : List (ℕ × ℕ) :=
  (List.range h).flatMap fun y => (List.range w).map fun x => (x, y)

/-- A double loop that rewrites each visited cell `(x, y)` to
`step x y (current value)`, visiting cells in the order of `cells`. -/
def forEachCell (cells : List (ℕ × ℕ)) (step : ℕ → ℕ → ℝ → ℝ) (m : TerrainModel) :
    TerrainModel :=
  cells.foldl (fun g c => updateCell g c.1 c.2 (step c.1 c.2 (g.elevationData c.2 c.1))) m

/-- The session's `this.weatheringRates` record. -/
structure WeatheringRates where
  physical : ℝ
  chemical : ℝ
  biological : ℝ

/-- The session's `this.datasets` record (only the elevation dataset is read by
the projection and erosion code). -/
structure Datasets where
  elevation : TerrainModel

/-- The fields of the `WeatheringMap` instance read by the terrain-evolution
methods. -/
structure WeatheringMapState where
  datasets : Datasets
  weatheringRates : WeatheringRates

/-- The `reactivityIndex` table of `calculateMineralReactivity`; `none` models
a mineral absent from the table (JS `undefined`, falsy in the guard). -/
noncomputable def reactivityIndex (mineral : String) : Option ℝ :=
  if mineral = "quartz" then some 0.1
  else if mineral = "feldspar" then some 0.7
  else if mineral = "mica" then some 0.5
  else if mineral = "calcite" then some 0.9
  else if mineral = "dolomite" then some 0.8
  else none

/-- `calculateMineralReactivity(mineralComposition)`: fold over the
composition's entries accumulating `(totalReactivity, totalPercentage)` for
recognized minerals, then `totalPercentage > 0 ? total/totalPercentage : 0.5`.
All table values are nonzero, so the JS truthiness guard
`if (reactivityIndex[mineral])` is exactly "the mineral is in the table". -/
noncomputable def calculateMineralReactivity (mineralComposition : List (String × ℝ)) : ℝ :=
  let totals := mineralComposition.foldl
    (fun acc p =>
      match reactivityIndex p.1 with
      | some r => (acc.1 + r * p.2, acc.2 + p.2)
      | none => acc)
    ((0 : ℝ), (0 : ℝ))
  if totals.2 > 0 then totals.1 / totals.2 else 0.5

/-- `determineTimeSteps(maxYears)`: three fixed ladders chosen by range, each
filtered to values `<= maxYears`. -/
noncomputable def determineTimeSteps (maxYears : ℝ) : List ℝ :=
  if maxYears ≤ 100 then
    [0, 10, 25, 50, 100].filter fun t => t ≤ maxYears
  else if maxYears ≤ 1000 then
    [0, 100, 250, 500, 1000].filter fun t => t ≤ maxYears
  else
    [0, 1000, 5000, 10000, 50000, 100000].filter fun t => t ≤ maxYears

/-- `calculateElevationFactor(elevation)`: 1 below 500 m, otherwise
`1 + ((elevation - 500) / 2000) * 0.5`. -/
noncomputable def calculateElevationFactor (elevation : ℝ) : ℝ :=
  if elevation < 500 then 1
  else 1 + (elevation - 500) / 2000 * 0.5

/-- `Math.atan2(y, x)` modelled as the principal argument of `x + y·i`. -/
noncomputable def atan2 (y x : ℝ) : ℝ :=
  Complex.arg ⟨x, y⟩

/-- `calculateSlope(x, y)`: reads `this.datasets.elevation` (the session's base
elevation grid, NOT any cloned terrain being mutated); 0 on the grid edge,
otherwise `atan(sqrt(dzdx² + dzdy²))` in degrees from centered differences
divided by `2 * cellSize`. -/
noncomputable def calculateSlope (s : WeatheringMapState) (x y : ℕ) : ℝ :=
  let terrain := s.datasets.elevation
  if x = 0 ∨ y = 0 ∨ x = terrain.width - 1 ∨ y = terrain.height - 1 then 0
  else
    let dzdx := (terrain.elevationData y (x + 1) - terrain.elevationData y (x - 1)) /
      (2 * terrain.cellSize)
    let dzdy := (terrain.elevationData (y + 1) x - terrain.elevationData (y - 1) x) /
      (2 * terrain.cellSize)
    Real.arctan (Real.sqrt (dzdx * dzdx + dzdy * dzdy)) * (180 / Real.pi)

/-- `calculateAspect(x, y)`: also reads `this.datasets.elevation`; 0 on the
edge, otherwise `atan2(-dzdy, dzdx)` on the RAW centered differences (no
division by cell size). -/
noncomputable def calculateAspect (s : WeatheringMapState) (x y : ℕ) : ℝ :=
  let terrain := s.datasets.elevation
  if x = 0 ∨ y = 0 ∨ x = terrain.width - 1 ∨ y = terrain.height - 1 then 0
  else
    let dzdx := terrain.elevationData y (x + 1) - terrain.elevationData y (x - 1)
    let dzdy := terrain.elevationData (y + 1) x - terrain.elevationData (y - 1) x
    atan2 (-dzdy) dzdx

/-- `calculateCellWeathering(x, y, baseWeatheringIntensity)`: slope, aspect and
the elevation for the elevation factor are all read from
`this.datasets.elevation` (the session's base grid). -/
noncomputable def calculateCellWeathering (s : WeatheringMapState) (x y : ℕ)
    (baseWeatheringIntensity : ℝ) : ℝ :=
  let slope := calculateSlope s x y
  let aspect := calculateAspect s x y
  let elevation := s.datasets.elevation.elevationData y x
  baseWeatheringIntensity * (1 + slope / 45) * (1 + Real.sin aspect * 0.2) *
    calculateElevationFactor elevation

/-- `calculateTotalWeatheringRate()`:
`(physical*0.4 + chemical*0.4 + biological*0.2) / 1000`. -/
noncomputable def calculateTotalWeatheringRate (s : WeatheringMapState) : ℝ :=
  (s.weatheringRates.physical * 0.4 + s.weatheringRates.chemical * 0.4 +
    s.weatheringRates.biological * 0.2) / 1000

/-- `cloneTerrainModel(originalTerrain)`: a value copy of the four fields (the
JSON round-trip deep-copies the elevation array). -/
def cloneTerrainModel (originalTerrain : TerrainModel) : TerrainModel :=
  { width := originalTerrain.width
    height := originalTerrain.height
    cellSize := originalTerrain.cellSize
    elevationData := fun y x => originalTerrain.elevationData y x }

/-- `calculateFlowDirections(terrainModel)`: each cell gets
`Math.floor(Math.random() * 8)`, modelled as `rand y x % 8` for an arbitrary
randomness oracle `rand`. -/
def calculateFlowDirections (rand : ℕ → ℕ → ℕ) (terrainModel : TerrainModel) :
    ℕ → ℕ → ℕ :=
  fun y x => rand y x % 8

/-- `calculateFlowAccumulation(flowDirections, terrainModel)`: the flow
directions are ignored and every cell gets accumulation 1. -/
def calculateFlowAccumulation (flowDirections : ℕ → ℕ → ℕ)
    (terrainModel : TerrainModel) : ℕ → ℕ → ℝ :=
  fun _ _ => 1

/-- `applyErosion(terrainModel, flowAccumulation, years)`:
`terrainModel[y][x] -= (0.00005*years) * sqrt(accumulation) * (slope/45)`, with
the slope taken from `calculateSlope` (hence from the session's base grid). -/
noncomputable def applyErosion (s : WeatheringMapState) (terrainModel : TerrainModel)
    (flowAccumulation : ℕ → ℕ → ℝ) (years : ℝ) : TerrainModel :=
  forEachCell (cellsYX terrainModel.width terrainModel.height)
    (fun x y v =>
      v - 0.00005 * years * Real.sqrt (flowAccumulation y x) * (calculateSlope s x y / 45))
    terrainModel

/-- `applyDeposition(terrainModel, flowAccumulation, years)`: where
`slope < 10`, `terrainModel[y][x] += max(0, (0.00002*years) * sqrt(accumulation)
* (1 - slope/90))`; slope again from the session's base grid. -/
noncomputable def applyDeposition (s : WeatheringMapState) (terrainModel : TerrainModel)
    (flowAccumulation : ℕ → ℕ → ℝ) (years : ℝ) : TerrainModel :=
  forEachCell (cellsYX terrainModel.width terrainModel.height)
    (fun x y v =>
      if calculateSlope s x y < 10 then
        v + max 0 (0.00002 * years * Real.sqrt (flowAccumulation y x) *
          (1 - calculateSlope s x y / 90))
      else v)
    terrainModel

/-- `simulateErosion(terrainModel, years)`: flow directions (random), flow
accumulation, then the full erosion pass followed by the full deposition
pass. -/
noncomputable def simulateErosion (s : WeatheringMapState) (terrainModel : TerrainModel)
    (rand : ℕ → ℕ → ℕ) (years : ℝ) : TerrainModel :=
  let flowDirections := calculateFlowDirections rand terrainModel
  let flowAccumulation := calculateFlowAccumulation flowDirections terrainModel
  applyDeposition s (applyErosion s terrainModel flowAccumulation years) flowAccumulation years

/-- The weathering loop of `projectWeathering`, generalized over the list of
visited cells (the source visits `cellsXY width height`):
`weatheredTerrain[y][x] -= calculateCellWeathering(x, y, intensity)`. -/
noncomputable def applyWeatheringOn (cells : List (ℕ × ℕ)) (s : WeatheringMapState)
    (weatheringIntensity : ℝ) (m : TerrainModel) : TerrainModel :=
  forEachCell cells (fun x y v => v - calculateCellWeathering s x y weatheringIntensity) m

/-- `projectWeathering(years)`: clone the base elevation dataset, subtract the
per-cell weathering loss (intensity `years * totalRate`), then run
`simulateErosion` on the weathered clone. -/
noncomputable def projectWeathering (s : WeatheringMapState) (rand : ℕ → ℕ → ℕ)
    (years : ℝ) : TerrainModel :=
  let weatheredTerrain := cloneTerrainModel s.datasets.elevation
  let weatheringIntensity := years * calculateTotalWeatheringRate s
  let weathered := applyWeatheringOn (cellsXY weatheredTerrain.width weatheredTerrain.height)
    s weatheringIntensity weatheredTerrain
  simulateErosion s weathered rand years

/-- `generateWeatheringModels(years)`: one projected grid per selected time
step, keyed by the step value. -/
noncomputable def generateWeatheringModels (s : WeatheringMapState) (rand : ℕ → ℕ → ℕ)
    (years : ℝ) : List (ℝ × TerrainModel) :=
  (determineTimeSteps years).map fun timeStep => (timeStep, projectWeathering s rand timeStep)

/-- Spec-side mirror of `determineTimeSteps`, written from the spec's words:
three fixed ladders chosen by range, each filtered to values `<= maxYears`
preserving ascending order. -/
noncomputable def specSelectTimeSteps (maxYears : ℝ) : List ℝ :=
  (if maxYears ≤ 100 then [0, 10, 25, 50, 100]
   else if maxYears ≤ 1000 then [0, 100, 250, 500, 1000]
   else [0, 1000, 5000, 10000, 50000, 100000]).filter fun t => t ≤ maxYears

/-- Spec-side numerator for mineral reactivity: sum of
`reactivity * abundance` over the recognized minerals only. -/
noncomputable def specMineralNumerator (comp : List (String × ℝ)) : ℝ :=
  ((comp.filter fun p => (reactivityIndex p.1).isSome).map
    fun p => (reactivityIndex p.1).getD 0 * p.2).sum

/-- Spec-side denominator for mineral reactivity: sum of abundances over the
recognized minerals only. -/
noncomputable def specMineralDenominator (comp : List (String × ℝ)) : ℝ :=
  ((comp.filter fun p => (reactivityIndex p.1).isSome).map Prod.snd).sum

/-- Spec-side aspect, written from the spec's words: centered differences
DIVIDED by `2 * cellSize`, then `atan2(-dzdy, dzdx)`; 0 on the edge. -/
noncomputable def specAspectRadians (s : WeatheringMapState) (x y : ℕ) : ℝ :=
  let terrain := s.datasets.elevation
  if x = 0 ∨ y = 0 ∨ x = terrain.width - 1 ∨ y = terrain.height - 1 then 0
  else
    let dzdx := (terrain.elevationData y (x + 1) - terrain.elevationData y (x - 1)) /
      (2 * terrain.cellSize)
    let dzdy := (terrain.elevationData (y + 1) x - terrain.elevationData (y - 1) x) /
      (2 * terrain.cellSize)
    atan2 (-dzdy) dzdx

/-- Slope of a given terrain model (same formula as `calculateSlope`, but
reading the model passed in rather than the session's base grid). Used to
state the claim that each erosion/deposition pass reads slopes from the grid
as it stands at that pass's start. -/
noncomputable def calculateSlopeOfModel (t : TerrainModel) (x y : ℕ) : ℝ :=
  if x = 0 ∨ y = 0 ∨ x = t.width - 1 ∨ y = t.height - 1 then 0
  else
    let dzdx := (t.elevationData y (x + 1) - t.elevationData y (x - 1)) / (2 * t.cellSize)
    let dzdy := (t.elevationData (y + 1) x - t.elevationData (y - 1) x) / (2 * t.cellSize)
    Real.arctan (Real.sqrt (dzdx * dzdx + dzdy * dzdy)) * (180 / Real.pi)

/-- Erosion pass as the claim describes it: every cell's slope computed against
the elevation state as it stands at the pass's start (the model `t` handed to
the pass). -/
noncomputable def applyErosionPassStartSlope (t : TerrainModel)
    (flowAccumulation : ℕ → ℕ → ℝ) (years : ℝ) : TerrainModel :=
  forEachCell (cellsYX t.width t.height)
    (fun x y v =>
      v - 0.00005 * years * Real.sqrt (flowAccumulation y x) * (calculateSlopeOfModel t x y / 45))
    t

/-- Deposition pass as the claim describes it: slopes from the grid at the
pass's start. -/
noncomputable def applyDepositionPassStartSlope (t : TerrainModel)
    (flowAccumulation : ℕ → ℕ → ℝ) (years : ℝ) : TerrainModel :=
  forEachCell (cellsYX t.width t.height)
    (fun x y v =>
      if calculateSlopeOfModel t x y < 10 then
        v + max 0 (0.00002 * years * Real.sqrt (flowAccumulation y x) *
          (1 - calculateSlopeOfModel t x y / 90))
      else v)
    t

/-- `simulateErosion` as the claim describes it: erosion fully first, then
deposition, each pass reading slope from the elevation state at that pass's
start. -/
noncomputable def simulateErosionPassStartSlope (t : TerrainModel) (rand : ℕ → ℕ → ℕ)
    (years : ℝ) : TerrainModel :=
  let flowDirections := calculateFlowDirections rand t
  let flowAccumulation := calculateFlowAccumulation flowDirections t
  applyDepositionPassStartSlope (applyErosionPassStartSlope t flowAccumulation years)
    flowAccumulation years

/-- `projectWeathering` with the claim's reading of the erosion stage. -/
noncomputable def projectWeatheringPassStartSlope (s : WeatheringMapState)
    (rand : ℕ → ℕ → ℕ) (years : ℝ) : TerrainModel :=
  let weatheredTerrain := cloneTerrainModel s.datasets.elevation
  let weatheringIntensity := years * calculateTotalWeatheringRate s
  let weathered := applyWeatheringOn (cellsXY weatheredTerrain.width weatheredTerrain.height)
    s weatheringIntensity weatheredTerrain
  simulateErosionPassStartSlope weathered rand years

/-- Heap of elevation buffers, making the JS object identity of
`elevationData` arrays observable: `buffers id` is the elevation array stored
at identity `id`, and `nextId` is the next fresh identity. -/
structure Store where
  buffers : ℕ → (ℕ → ℕ → ℝ)
  nextId : ℕ

/-- A terrain model whose elevation array lives in a `Store`: the scalar
fields are values, `bufferId` is the identity of the elevation array. -/
structure TerrainRef where
  width : ℕ
  height : ℕ
  cellSize : ℝ
  bufferId : ℕ

/-- Read `terrain.elevationData[y][x]` through the store. -/
def readCell (st : Store) (ref : TerrainRef) (y x : ℕ) : ℝ :=
  st.buffers ref.bufferId y x

/-- Write `terrain.elevationData[y][x] = v` through the store: only the buffer
at `ref.bufferId` changes. -/
def writeCell (st : Store) (ref : TerrainRef) (x y : ℕ) (v : ℝ) : Store :=
  { st with
    buffers := fun id =>
      if id = ref.bufferId then
        fun y0 x0 => if y0 = y ∧ x0 = x then v else st.buffers id y0 x0
      else st.buffers id }

/-- The value-level `TerrainModel` denoted by a reference in a store. -/
def viewTerrain (st : Store) (ref : TerrainRef) : TerrainModel :=
  { width := ref.width
    height := ref.height
    cellSize := ref.cellSize
    elevationData := st.buffers ref.bufferId }

/-- `cloneTerrainModel` at store level: copy the scalar fields and allocate a
FRESH buffer (identity `st.nextId`) holding a copy of the original elevation
values — the JSON round-trip in the source. -/
def cloneTerrainModelS (st : Store) (originalTerrain : TerrainRef) : TerrainRef × Store :=
  ({ width := originalTerrain.width
     height := originalTerrain.height
     cellSize := originalTerrain.cellSize
     bufferId := st.nextId },
   { buffers := fun id =>
       if id = st.nextId then st.buffers originalTerrain.bufferId else st.buffers id
     nextId := st.nextId + 1 })

/-- Store-level double loop: rewrite each visited cell of the buffer owned by
`ref`, the step reading the current store (so it can read the session's base
grid through it, as `calculateSlope` does). -/
def forEachCellS (cells : List (ℕ × ℕ)) (ref : TerrainRef)
    (step : Store → ℕ → ℕ → ℝ → ℝ) (st : Store) : Store :=
  cells.foldl (fun st0 c => writeCell st0 ref c.1 c.2 (step st0 c.1 c.2 (readCell st0 ref c.2 c.1))) st

/-- The session record denoted by a store, a reference to the loaded elevation
dataset, and the current rates. -/
def sessionOfS (st : Store) (baseRef : TerrainRef) (rates : WeatheringRates) :
    WeatheringMapState :=
  { datasets := { elevation := viewTerrain st baseRef }, weatheringRates := rates }

/-- `projectWeathering` at store level: clone the base dataset into a fresh
buffer, run the weathering loop, then the erosion and deposition passes, all
writes going to the clone's buffer; slopes/aspects/elevation factors are read
through the live store from the base dataset's buffer. -/
noncomputable def projectWeatheringS (rates : WeatheringRates) (baseRef : TerrainRef)
    (rand : ℕ → ℕ → ℕ) (years : ℝ) (st : Store) : TerrainRef × Store :=
  let cl := cloneTerrainModelS st baseRef
  let weatheredRef := cl.1
  let st1 := cl.2
  let weatheringIntensity := years * calculateTotalWeatheringRate (sessionOfS st1 baseRef rates)
  let st2 := forEachCellS (cellsXY weatheredRef.width weatheredRef.height) weatheredRef
    (fun stc x y v => v - calculateCellWeathering (sessionOfS stc baseRef rates) x y
      weatheringIntensity) st1
  let flowAccumulation := calculateFlowAccumulation
    (calculateFlowDirections rand (viewTerrain st2 weatheredRef)) (viewTerrain st2 weatheredRef)
  let st3 := forEachCellS (cellsYX weatheredRef.width weatheredRef.height) weatheredRef
    (fun stc x y v => v - 0.00005 * years * Real.sqrt (flowAccumulation y x) *
      (calculateSlope (sessionOfS stc baseRef rates) x y / 45)) st2
  let st4 := forEachCellS (cellsYX weatheredRef.width weatheredRef.height) weatheredRef
    (fun stc x y v =>
      if calculateSlope (sessionOfS stc baseRef rates) x y < 10 then
        v + max 0 (0.00002 * years * Real.sqrt (flowAccumulation y x) *
          (1 - calculateSlope (sessionOfS stc baseRef rates) x y / 90))
      else v) st3
  (weatheredRef, st4)

/-- `generateWeatheringModels` at store level: one projection per selected time
step, threading the store. -/
noncomputable def generateWeatheringModelsS (rates : WeatheringRates) (baseRef : TerrainRef)
    (rand : ℕ → ℕ → ℕ) (years : ℝ) (st : Store) : List (ℝ × TerrainRef) × Store :=
  (determineTimeSteps years).foldl
    (fun acc timeStep =>
      let r := projectWeatheringS rates baseRef rand timeStep acc.2
      (acc.1 ++ [(timeStep, r.1)], r.2))
    ([], st)

/-- The state of `projectWeathering`'s `weatheredTerrain` after the weathering
loop and before `simulateErosion` (the clone of the base dataset with the
per-cell weathering loss subtracted). -/
noncomputable def weatheredGrid (s : WeatheringMapState) (years : ℝ) : TerrainModel :=
  applyWeatheringOn
    (cellsXY (cloneTerrainModel s.datasets.elevation).width
      (cloneTerrainModel s.datasets.elevation).height)
    s (years * calculateTotalWeatheringRate s) (cloneTerrainModel s.datasets.elevation)

/-- Concrete 3×3 base elevation grid, flat at 0 except 2500 m at cell
`(x, y) = (2, 1)`; cell size 1. -/
noncomputable def baseGridCx : TerrainModel :=
  { width := 3, height := 3, cellSize := 1
    elevationData := fun y x => if y = 1 ∧ x = 2 then 2500 else 0 }

/-- Concrete session: the grid above with rates `(2500, 0, 0)`, so the total
combined rate is exactly 1 m/year. -/
noncomputable def sessionCx : WeatheringMapState :=
  { datasets := { elevation := baseGridCx }
    weatheringRates := { physical := 2500, chemical := 0, biological := 0 } }

/-- A fixed randomness oracle (every draw 0). -/
def randZero : ℕ → ℕ → ℕ := fun _ _ => 0

/-- Concrete flat session: 4×4 grid, every elevation 100 m, cell size 1,
rates `(1, 1, 1)`. -/
noncomputable def sessionFlat : WeatheringMapState :=
  { datasets := { elevation :=
      { width := 4, height := 4, cellSize := 1, elevationData := fun _ _ => 100 } }
    weatheringRates := { physical := 1, chemical := 1, biological := 1 } }

/-- Concrete non-flat session for aspect sampling: 3×3 grid, cell size 2,
elevation `x + 2y`. -/
noncomputable def sessionAspect : WeatheringMapState :=
  { datasets := { elevation :=
      { width := 3, height := 3, cellSize := 2
        elevationData := fun y x => (x : ℝ) + 2 * (y : ℝ) } }
    weatheringRates := { physical := 1, chemical := 1, biological := 1 } }

/-- Concrete store holding one allocated buffer (identity 0, all zeros). -/
def storeW : Store :=
  { buffers := fun _ _ _ => 0, nextId := 1 }

/-- Reference to the allocated buffer of `storeW` as a 2×2 terrain. -/
def baseRefW : TerrainRef :=
  { width := 2, height := 2, cellSize := 1, bufferId := 0 }

/-- Concrete rates for the store witness. -/
noncomputable def ratesW : WeatheringRates :=
  { physical := 1, chemical := 2, biological := 3 }

theorem forEachCell_cons (c : ℕ × ℕ) (cells : List (ℕ × ℕ)) (step : ℕ → ℕ → ℝ → ℝ)
    (m : TerrainModel) :
    forEachCell (c :: cells) step m =
      forEachCell cells step (updateCell m c.1 c.2 (step c.1 c.2 (m.elevationData c.2 c.1))) :=
  rfl

theorem updateCell_elevationData_self (m : TerrainModel) (x y : ℕ) (v : ℝ) :
    (updateCell m x y v).elevationData y x = v := by
  simp [updateCell]

theorem updateCell_elevationData_ne (m : TerrainModel) (x y : ℕ) (v : ℝ) (x0 y0 : ℕ)
    (h : ¬(x0 = x ∧ y0 = y)) :
    (updateCell m x y v).elevationData y0 x0 = m.elevationData y0 x0 := by
  simp only [updateCell]
  rw [if_neg fun hc => h ⟨hc.2, hc.1⟩]

theorem forEachCell_width (cells : List (ℕ × ℕ)) (step : ℕ → ℕ → ℝ → ℝ) (m : TerrainModel) :
    (forEachCell cells step m).width = m.width := by
  induction cells generalizing m with
  | nil => rfl
  | cons c rest ih => exact ih _

theorem forEachCell_height (cells : List (ℕ × ℕ)) (step : ℕ → ℕ → ℝ → ℝ) (m : TerrainModel) :
    (forEachCell cells step m).height = m.height := by
  induction cells generalizing m with
  | nil => rfl
  | cons c rest ih => exact ih _

theorem forEachCell_cellSize (cells : List (ℕ × ℕ)) (step : ℕ → ℕ → ℝ → ℝ)
    (m : TerrainModel) :
    (forEachCell cells step m).cellSize = m.cellSize := by
  induction cells generalizing m with
  | nil => rfl
  | cons c rest ih => exact ih _

theorem forEachCell_elevationData_of_not_mem (cells : List (ℕ × ℕ)) {x y : ℕ} :
    ∀ (step : ℕ → ℕ → ℝ → ℝ) (m : TerrainModel), (x, y) ∉ cells →
      (forEachCell cells step m).elevationData y x = m.elevationData y x := by
  induction cells with
  | nil => intro step m _; rfl
  | cons c rest ih =>
    intro step m h
    rw [forEachCell_cons, ih step _ fun hm => h (List.mem_cons_of_mem _ hm)]
    exact updateCell_elevationData_ne _ _ _ _ _ _
      fun hc => h (List.mem_cons.2 (Or.inl (Prod.ext_iff.mpr ⟨hc.1, hc.2⟩)))

theorem forEachCell_elevationData_of_mem (cells : List (ℕ × ℕ)) {x y : ℕ} :
    ∀ (step : ℕ → ℕ → ℝ → ℝ) (m : TerrainModel), cells.Nodup → (x, y) ∈ cells →
      (forEachCell cells step m).elevationData y x = step x y (m.elevationData y x) := by
  induction cells with
  | nil => intro step m _ h; cases h
  | cons c rest ih =>
    intro step m hnd h
    rw [List.nodup_cons] at hnd
    rw [forEachCell_cons]
    rcases List.mem_cons.1 h with heq | hmem
    · have hre : (x, y) ∉ rest := heq ▸ hnd.1
      rw [forEachCell_elevationData_of_not_mem rest step _ hre]
      subst heq
      simp [updateCell]
    · have hc : ¬(x = c.1 ∧ y = c.2) := by
        rintro ⟨h1, h2⟩
        exact hnd.1 (by
          have : c = (x, y) := Prod.ext_iff.mpr ⟨h1.symm, h2.symm⟩
          rw [this]; exact hmem)
      rw [ih step _ hnd.2 hmem, updateCell_elevationData_ne _ _ _ _ _ _ hc]

theorem mem_cellsXY {w h x y : ℕ} : (x, y) ∈ cellsXY w h ↔ x < w ∧ y < h := by
  simp [cellsXY, List.mem_flatMap]

theorem mem_cellsYX {w h x y : ℕ} : (x, y) ∈ cellsYX w h ↔ x < w ∧ y < h := by
  simp only [cellsYX, List.mem_flatMap, List.mem_map, List.mem_range, Prod.mk.injEq]
  aesop

theorem nodup_cellsXY (w h : ℕ) : (cellsXY w h).Nodup := by
  rw [cellsXY, List.nodup_flatMap]
  refine ⟨fun x _ => List.Nodup.map (fun a b hab => congrArg Prod.snd hab)
    (List.nodup_range h), ?_⟩
  refine (List.nodup_range w).imp ?_
  intro a b hab p hp1 hp2
  simp only [List.mem_map, List.mem_range] at hp1 hp2
  obtain ⟨y1, -, rfl⟩ := hp1
  obtain ⟨y2, -, h2⟩ := hp2
  exact hab (congrArg Prod.fst h2).symm

theorem nodup_cellsYX (w h : ℕ) : (cellsYX w h).Nodup := by
  rw [cellsYX, List.nodup_flatMap]
  refine ⟨fun y _ => List.Nodup.map (fun a b hab => congrArg Prod.fst hab)
    (List.nodup_range w), ?_⟩
  refine (List.nodup_range h).imp ?_
  intro a b hab p hp1 hp2
  simp only [List.mem_map, List.mem_range] at hp1 hp2
  obtain ⟨x1, -, rfl⟩ := hp1
  obtain ⟨x2, -, h2⟩ := hp2
  exact hab (congrArg Prod.snd h2).symm

theorem arctan_nonneg_of_nonneg {t : ℝ} (h : 0 ≤ t) : 0 ≤ Real.arctan t := by
  have h2 := Real.arctan_strictMono.monotone h
  rwa [Real.arctan_zero] at h2

theorem calculateSlope_nonneg (s : WeatheringMapState) (x y : ℕ) :
    0 ≤ calculateSlope s x y := by
  simp only [calculateSlope]
  split
  · exact le_refl 0
  · exact mul_nonneg (arctan_nonneg_of_nonneg (Real.sqrt_nonneg _))
      (div_nonneg (by norm_num) Real.pi_pos.le)

theorem calculateSlopeOfModel_nonneg (t : TerrainModel) (x y : ℕ) :
    0 ≤ calculateSlopeOfModel t x y := by
  simp only [calculateSlopeOfModel]
  split
  · exact le_refl 0
  · exact mul_nonneg (arctan_nonneg_of_nonneg (Real.sqrt_nonneg _))
      (div_nonneg (by norm_num) Real.pi_pos.le)

theorem applyErosion_width (s : WeatheringMapState) (t : TerrainModel)
    (acc : ℕ → ℕ → ℝ) (years : ℝ) : (applyErosion s t acc years).width = t.width :=
  forEachCell_width _ _ _

theorem applyErosion_height (s : WeatheringMapState) (t : TerrainModel)
    (acc : ℕ → ℕ → ℝ) (years : ℝ) : (applyErosion s t acc years).height = t.height :=
  forEachCell_height _ _ _

theorem applyErosion_elevationData (s : WeatheringMapState) (t : TerrainModel)
    (acc : ℕ → ℕ → ℝ) (years : ℝ) {x y : ℕ} (hx : x < t.width) (hy : y < t.height) :
    (applyErosion s t acc years).elevationData y x =
      t.elevationData y x -
        0.00005 * years * Real.sqrt (acc y x) * (calculateSlope s x y / 45) :=
  forEachCell_elevationData_of_mem _ _ _ (nodup_cellsYX _ _) (mem_cellsYX.mpr ⟨hx, hy⟩)

theorem applyErosion_elevationData_out (s : WeatheringMapState) (t : TerrainModel)
    (acc : ℕ → ℕ → ℝ) (years : ℝ) {x y : ℕ} (h : ¬(x < t.width ∧ y < t.height)) :
    (applyErosion s t acc years).elevationData y x = t.elevationData y x :=
  forEachCell_elevationData_of_not_mem _ _ _ fun hm => h (mem_cellsYX.mp hm)

theorem applyDeposition_elevationData (s : WeatheringMapState) (t : TerrainModel)
    (acc : ℕ → ℕ → ℝ) (years : ℝ) {x y : ℕ} (hx : x < t.width) (hy : y < t.height) :
    (applyDeposition s t acc years).elevationData y x =
      if calculateSlope s x y < 10 then
        t.elevationData y x +
          max 0 (0.00002 * years * Real.sqrt (acc y x) * (1 - calculateSlope s x y / 90))
      else t.elevationData y x :=
  forEachCell_elevationData_of_mem _ _ _ (nodup_cellsYX _ _) (mem_cellsYX.mpr ⟨hx, hy⟩)

theorem applyDeposition_elevationData_out (s : WeatheringMapState) (t : TerrainModel)
    (acc : ℕ → ℕ → ℝ) (years : ℝ) {x y : ℕ} (h : ¬(x < t.width ∧ y < t.height)) :
    (applyDeposition s t acc years).elevationData y x = t.elevationData y x :=
  forEachCell_elevationData_of_not_mem _ _ _ fun hm => h (mem_cellsYX.mp hm)

theorem simulateErosion_eq (s : WeatheringMapState) (t : TerrainModel)
    (rand : ℕ → ℕ → ℕ) (years : ℝ) :
    simulateErosion s t rand years =
      applyDeposition s (applyErosion s t (fun _ _ => 1) years) (fun _ _ => 1) years :=
  rfl

theorem simulateErosion_elevationData (s : WeatheringMapState) (t : TerrainModel)
    (rand : ℕ → ℕ → ℕ) (years : ℝ) {x y : ℕ} (hx : x < t.width) (hy : y < t.height) :
    (simulateErosion s t rand years).elevationData y x =
      if calculateSlope s x y < 10 then
        (t.elevationData y x - 0.00005 * years * Real.sqrt 1 * (calculateSlope s x y / 45)) +
          max 0 (0.00002 * years * Real.sqrt 1 * (1 - calculateSlope s x y / 90))
      else
        t.elevationData y x - 0.00005 * years * Real.sqrt 1 * (calculateSlope s x y / 45) := by
  rw [simulateErosion_eq]
  have hx2 : x < (applyErosion s t (fun _ _ => 1) years).width := by
    rw [applyErosion_width]; exact hx
  have hy2 : y < (applyErosion s t (fun _ _ => 1) years).height := by
    rw [applyErosion_height]; exact hy
  rw [applyDeposition_elevationData s _ _ _ hx2 hy2,
    applyErosion_elevationData s t _ _ hx hy]

theorem weatheredGrid_width (s : WeatheringMapState) (years : ℝ) :
    (weatheredGrid s years).width = s.datasets.elevation.width :=
  forEachCell_width _ _ _

theorem weatheredGrid_height (s : WeatheringMapState) (years : ℝ) :
    (weatheredGrid s years).height = s.datasets.elevation.height :=
  forEachCell_height _ _ _

theorem weatheredGrid_cellSize (s : WeatheringMapState) (years : ℝ) :
    (weatheredGrid s years).cellSize = s.datasets.elevation.cellSize :=
  forEachCell_cellSize _ _ _

theorem weatheredGrid_elevationData (s : WeatheringMapState) (years : ℝ) {x y : ℕ}
    (hx : x < s.datasets.elevation.width) (hy : y < s.datasets.elevation.height) :
    (weatheredGrid s years).elevationData y x =
      s.datasets.elevation.elevationData y x -
        calculateCellWeathering s x y (years * calculateTotalWeatheringRate s) :=
  forEachCell_elevationData_of_mem _ _ _ (nodup_cellsXY _ _) (mem_cellsXY.mpr ⟨hx, hy⟩)

theorem weatheredGrid_elevationData_out (s : WeatheringMapState) (years : ℝ) {x y : ℕ}
    (h : ¬(x < s.datasets.elevation.width ∧ y < s.datasets.elevation.height)) :
    (weatheredGrid s years).elevationData y x = s.datasets.elevation.elevationData y x :=
  forEachCell_elevationData_of_not_mem _ _ _ fun hm => h (mem_cellsXY.mp hm)

theorem projectWeathering_eq (s : WeatheringMapState) (rand : ℕ → ℕ → ℕ) (years : ℝ) :
    projectWeathering s rand years = simulateErosion s (weatheredGrid s years) rand years :=
  rfl

theorem applyErosionPassStartSlope_width (t : TerrainModel) (acc : ℕ → ℕ → ℝ) (years : ℝ) :
    (applyErosionPassStartSlope t acc years).width = t.width :=
  forEachCell_width _ _ _

theorem applyErosionPassStartSlope_height (t : TerrainModel) (acc : ℕ → ℕ → ℝ) (years : ℝ) :
    (applyErosionPassStartSlope t acc years).height = t.height :=
  forEachCell_height _ _ _

theorem applyErosionPassStartSlope_cellSize (t : TerrainModel) (acc : ℕ → ℕ → ℝ)
    (years : ℝ) : (applyErosionPassStartSlope t acc years).cellSize = t.cellSize :=
  forEachCell_cellSize _ _ _

theorem applyErosionPassStartSlope_elevationData (t : TerrainModel) (acc : ℕ → ℕ → ℝ)
    (years : ℝ) {x y : ℕ} (hx : x < t.width) (hy : y < t.height) :
    (applyErosionPassStartSlope t acc years).elevationData y x =
      t.elevationData y x -
        0.00005 * years * Real.sqrt (acc y x) * (calculateSlopeOfModel t x y / 45) :=
  forEachCell_elevationData_of_mem _ _ _ (nodup_cellsYX _ _) (mem_cellsYX.mpr ⟨hx, hy⟩)

theorem applyDepositionPassStartSlope_elevationData (t : TerrainModel) (acc : ℕ → ℕ → ℝ)
    (years : ℝ) {x y : ℕ} (hx : x < t.width) (hy : y < t.height) :
    (applyDepositionPassStartSlope t acc years).elevationData y x =
      if calculateSlopeOfModel t x y < 10 then
        t.elevationData y x +
          max 0 (0.00002 * years * Real.sqrt (acc y x) * (1 - calculateSlopeOfModel t x y / 90))
      else t.elevationData y x :=
  forEachCell_elevationData_of_mem _ _ _ (nodup_cellsYX _ _) (mem_cellsYX.mpr ⟨hx, hy⟩)

theorem simulateErosionPassStartSlope_eq (t : TerrainModel) (rand : ℕ → ℕ → ℕ) (years : ℝ) :
    simulateErosionPassStartSlope t rand years =
      applyDepositionPassStartSlope (applyErosionPassStartSlope t (fun _ _ => 1) years)
        (fun _ _ => 1) years :=
  rfl

theorem projectWeatheringPassStartSlope_eq (s : WeatheringMapState) (rand : ℕ → ℕ → ℕ)
    (years : ℝ) :
    projectWeatheringPassStartSlope s rand years =
      simulateErosionPassStartSlope (weatheredGrid s years) rand years :=
  rfl

/-- C2: for every fully-resolved session and every years value the result of
`projectWeathering` (and each grid of `generateWeatheringModels`) is a
deterministic function of the inputs: two runs with different randomness
oracles produce identical elevation grids, because the random flow-direction
array is never read and `calculateFlowAccumulation` is the constant 1 at
every cell. -/
theorem C2_projection_deterministic (s : WeatheringMapState) (years : ℝ)
    (rand1 rand2 : ℕ → ℕ → ℕ) :
    projectWeathering s rand1 years = projectWeathering s rand2 years ∧
      generateWeatheringModels s rand1 years = generateWeatheringModels s rand2 years ∧
      ∀ (dirs : ℕ → ℕ → ℕ) (t : TerrainModel) (y x : ℕ),
        calculateFlowAccumulation dirs t y x = 1 :=
  ⟨rfl, rfl, fun _ _ _ _ => rfl⟩

/-- C4: projecting 0 years returns a grid whose every elevation value equals
the base grid's exactly: the weathering intensity is 0 so the per-cell loss
is 0, and with years = 0 the erosion and deposition amounts are both 0, so no
pass changes any cell. -/
theorem C4_project_zero_years (s : WeatheringMapState) (rand : ℕ → ℕ → ℕ) (x y : ℕ) :
    (projectWeathering s rand 0).elevationData y x =
      s.datasets.elevation.elevationData y x := by
  rw [projectWeathering_eq]
  by_cases hin : x < s.datasets.elevation.width ∧ y < s.datasets.elevation.height
  · have hxw : x < (weatheredGrid s 0).width := by rw [weatheredGrid_width]; exact hin.1
    have hyh : y < (weatheredGrid s 0).height := by rw [weatheredGrid_height]; exact hin.2
    rw [simulateErosion_elevationData s _ rand 0 hxw hyh,
      weatheredGrid_elevationData s 0 hin.1 hin.2]
    have hcw : calculateCellWeathering s x y (0 * calculateTotalWeatheringRate s) = 0 := by
      simp [calculateCellWeathering]
    rw [hcw]
    split <;> simp
  · have hw : ¬(x < (weatheredGrid s 0).width ∧ y < (weatheredGrid s 0).height) := by
      rw [weatheredGrid_width, weatheredGrid_height]; exact hin
    rw [simulateErosion_eq]
    have h2 : ¬(x < (applyErosion s (weatheredGrid s 0) (fun _ _ => 1) 0).width ∧
        y < (applyErosion s (weatheredGrid s 0) (fun _ _ => 1) 0).height) := by
      rw [applyErosion_width, applyErosion_height]; exact hw
    rw [applyDeposition_elevationData_out _ _ _ _ h2,
      applyErosion_elevationData_out _ _ _ _ hw,
      weatheredGrid_elevationData_out _ _ hin]

/-- C5: for every terrain grid and non-negative years, the erosion pass never
raises any cell's elevation, and the deposition pass never lowers any cell's
elevation (the deposited amount is clamped to at least 0 and applied only
where the slope is below 10 degrees). -/
theorem C5_erosion_lowers_deposition_raises (s : WeatheringMapState)
    (t t2 : TerrainModel) (acc : ℕ → ℕ → ℝ) (years : ℝ) (h : 0 ≤ years) (x y : ℕ) :
    (applyErosion s t acc years).elevationData y x ≤ t.elevationData y x ∧
      t2.elevationData y x ≤ (applyDeposition s t2 acc years).elevationData y x := by
  constructor
  · by_cases hin : x < t.width ∧ y < t.height
    · rw [applyErosion_elevationData s t acc years hin.1 hin.2]
      have hnn : 0 ≤ 0.00005 * years * Real.sqrt (acc y x) * (calculateSlope s x y / 45) :=
        mul_nonneg (mul_nonneg (mul_nonneg (by norm_num) h) (Real.sqrt_nonneg _))
          (div_nonneg (calculateSlope_nonneg s x y) (by norm_num))
      linarith
    · rw [applyErosion_elevationData_out s t acc years hin]
  · by_cases hin : x < t2.width ∧ y < t2.height
    · rw [applyDeposition_elevationData s t2 acc years hin.1 hin.2]
      split
      · have hmx : (0:ℝ) ≤ max 0 (0.00002 * years * Real.sqrt (acc y x) *
            (1 - calculateSlope s x y / 90)) := le_max_left 0 _
        linarith
      · exact le_refl _
    · rw [applyDeposition_elevationData_out s t2 acc years hin]

/-- Witness for C5 at a concrete session, grid, accumulation, years = 1 and
cell (0, 0). -/
theorem C5_witness : (0:ℝ) ≤ 1 ∧
    ((applyErosion sessionCx baseGridCx (fun _ _ => 1) 1).elevationData 0 0 ≤
        baseGridCx.elevationData 0 0 ∧
      baseGridCx.elevationData 0 0 ≤
        (applyDeposition sessionCx baseGridCx (fun _ _ => 1) 1).elevationData 0 0) :=
  ⟨by norm_num,
    C5_erosion_lowers_deposition_raises sessionCx baseGridCx baseGridCx
      (fun _ _ => 1) 1 (by norm_num) 0 0⟩

/-- C7: `determineTimeSteps` returns the fixed ladder selected by range,
filtered to values below or equal to `maxYears` with ascending order
preserved; in particular `determineTimeSteps 75 = [0, 10, 25, 50]`. -/
theorem C7_determineTimeSteps (maxYears : ℝ) :
    determineTimeSteps maxYears = specSelectTimeSteps maxYears ∧
      determineTimeSteps 75 = [0, 10, 25, 50] := by
  constructor
  · unfold determineTimeSteps specSelectTimeSteps
    by_cases h1 : maxYears ≤ 100
    · rw [if_pos h1, if_pos h1]
    · rw [if_neg h1, if_neg h1]
      by_cases h2 : maxYears ≤ 1000
      · rw [if_pos h2, if_pos h2]
      · rw [if_neg h2, if_neg h2]
  · have h75 : (75:ℝ) ≤ 100 := by norm_num
    simp only [determineTimeSteps, if_pos h75, List.filter_cons, List.filter_nil,
      decide_eq_true_eq]
    norm_num

theorem mineralFold_eq (comp : List (String × ℝ)) : ∀ a b : ℝ,
    comp.foldl
      (fun acc p =>
        match reactivityIndex p.1 with
        | some r => (acc.1 + r * p.2, acc.2 + p.2)
        | none => acc)
      (a, b) =
      (a + specMineralNumerator comp, b + specMineralDenominator comp) := by
  induction comp with
  | nil =>
    intro a b
    simp [specMineralNumerator, specMineralDenominator]
  | cons p rest ih =>
    intro a b
    cases hidx : reactivityIndex p.1 with
    | none =>
      simp only [List.foldl_cons, hidx, specMineralNumerator, specMineralDenominator,
        List.filter_cons, Option.isSome_none, Bool.false_eq_true, if_false]
      exact ih a b
    | some r =>
      simp only [List.foldl_cons, hidx, specMineralNumerator, specMineralDenominator,
        List.filter_cons, Option.isSome_some, if_true, List.map_cons, List.sum_cons]
      rw [ih (a + r * p.2) (b + p.2)]
      rw [Prod.ext_iff]
      constructor
      · simp only [specMineralNumerator, hidx, Option.getD_some]
        ring
      · simp only [specMineralDenominator]
        ring

/-- C8: `calculateMineralReactivity` is the abundance-weighted average of the
table reactivities over the recognized minerals only (unrecognized minerals
excluded from numerator and denominator), 0.5 when no recognized mineral is
present, and exactly 0.4 on the composition quartz 0.5 / feldspar 0.5. -/
theorem C8_mineral_reactivity (comp : List (String × ℝ)) :
    (0 < specMineralDenominator comp →
        calculateMineralReactivity comp =
          specMineralNumerator comp / specMineralDenominator comp) ∧
      ((∀ p ∈ comp, reactivityIndex p.1 = none) → calculateMineralReactivity comp = 0.5) ∧
      calculateMineralReactivity [("quartz", 0.5), ("feldspar", 0.5)] = 0.4 := by
  refine ⟨?_, ?_, ?_⟩
  · intro hden
    rw [calculateMineralReactivity]
    simp only [mineralFold_eq comp 0 0, zero_add]
    rw [if_pos hden]
  · intro hall
    have hfil : comp.filter (fun p => (reactivityIndex p.1).isSome) = [] := by
      rw [List.filter_eq_nil_iff]
      intro p hp
      simp [hall p hp]
    have hden : specMineralDenominator comp = 0 := by
      rw [specMineralDenominator, hfil]; rfl
    rw [calculateMineralReactivity]
    simp only [mineralFold_eq comp 0 0, zero_add]
    rw [hden, if_neg (by norm_num)]
  · rw [calculateMineralReactivity]
    have hq : reactivityIndex "quartz" = some 0.1 := by rw [reactivityIndex]; simp
    have hf : reactivityIndex "feldspar" = some 0.7 := by
      rw [reactivityIndex]
      rw [if_neg (by decide : ¬("feldspar" = "quartz")), if_pos rfl]
    simp only [List.foldl_cons, List.foldl_nil, hq, hf]
    norm_num

/-- Witness for C8: the weighted-average branch at the quartz/feldspar
composition, and the no-recognized-mineral branch at a composition holding
only an unrecognized mineral. -/
theorem C8_witness :
    calculateMineralReactivity [("quartz", 0.5), ("feldspar", 0.5)] =
        specMineralNumerator [("quartz", 0.5), ("feldspar", 0.5)] /
          specMineralDenominator [("quartz", 0.5), ("feldspar", 0.5)] ∧
      calculateMineralReactivity [("gold", 1)] = 0.5 := by
  constructor
  · refine (C8_mineral_reactivity _).1 ?_
    have hq : reactivityIndex "quartz" = some 0.1 := by rw [reactivityIndex]; simp
    have hf : reactivityIndex "feldspar" = some 0.7 := by
      rw [reactivityIndex]
      rw [if_neg (by decide : ¬("feldspar" = "quartz")), if_pos rfl]
    rw [specMineralDenominator]
    simp only [List.filter_cons, List.filter_nil, hq, hf, Option.isSome_some, if_true]
    norm_num
  · refine (C8_mineral_reactivity _).2.1 ?_
    intro p hp
    simp only [List.mem_singleton] at hp
    subst hp
    rw [reactivityIndex]
    rw [if_neg (by decide : ¬("gold" = "quartz")), if_neg (by decide : ¬("gold" = "feldspar")),
      if_neg (by decide : ¬("gold" = "mica")), if_neg (by decide : ¬("gold" = "calcite")),
      if_neg (by decide : ¬("gold" = "dolomite"))]

theorem calculateSlope_edge (s : WeatheringMapState) (x y : ℕ)
    (h : x = 0 ∨ y = 0 ∨ x = s.datasets.elevation.width - 1 ∨
      y = s.datasets.elevation.height - 1) :
    calculateSlope s x y = 0 := by
  simp only [calculateSlope]
  exact if_pos h

theorem calculateAspect_edge (s : WeatheringMapState) (x y : ℕ)
    (h : x = 0 ∨ y = 0 ∨ x = s.datasets.elevation.width - 1 ∨
      y = s.datasets.elevation.height - 1) :
    calculateAspect s x y = 0 := by
  simp only [calculateAspect]
  exact if_pos h

theorem calculateSlopeOfModel_edge (t : TerrainModel) (x y : ℕ)
    (h : x = 0 ∨ y = 0 ∨ x = t.width - 1 ∨ y = t.height - 1) :
    calculateSlopeOfModel t x y = 0 := by
  simp only [calculateSlopeOfModel]
  exact if_pos h

/-- C3: on a flat grid every cell's slope is 0 (and the aspect term is
neutral), so the weathering loop of `projectWeathering` subtracts the uniform
loss `intensity * elevationFactor(c)` at every cell — `slopeFactor = 1`,
`aspectFactor = 1`, and the elevation factor depends only on the uniform
elevation value `c`. -/
theorem C3_flat_uniform_loss (s : WeatheringMapState) (c : ℝ)
    (hflat : ∀ x y : ℕ, s.datasets.elevation.elevationData y x = c) :
    (∀ x y : ℕ, calculateSlope s x y = 0) ∧
      (∀ (x y : ℕ) (intensity : ℝ),
        calculateCellWeathering s x y intensity =
          intensity * calculateElevationFactor c) ∧
      (∀ (years : ℝ) (x y : ℕ), x < s.datasets.elevation.width →
        y < s.datasets.elevation.height →
        (weatheredGrid s years).elevationData y x =
          c - years * calculateTotalWeatheringRate s * calculateElevationFactor c) := by
  have hslope : ∀ x y : ℕ, calculateSlope s x y = 0 := by
    intro x y
    simp only [calculateSlope]
    split
    · rfl
    · simp [hflat]
  have haspect : ∀ x y : ℕ, calculateAspect s x y = 0 := by
    intro x y
    simp only [calculateAspect]
    split
    · rfl
    · simp only [hflat, sub_self, neg_zero, atan2]
      exact Complex.arg_zero
  have hcw : ∀ (x y : ℕ) (intensity : ℝ),
      calculateCellWeathering s x y intensity = intensity * calculateElevationFactor c := by
    intro x y intensity
    simp only [calculateCellWeathering, hslope, haspect, hflat]
    simp [Real.sin_zero]
  refine ⟨hslope, hcw, ?_⟩
  intro years x y hx hy
  rw [weatheredGrid_elevationData s years hx hy, hcw, hflat]

/-- Witness for C3 at the concrete flat session (uniform elevation 100 m). -/
theorem C3_witness :
    calculateSlope sessionFlat 1 1 = 0 ∧
      calculateCellWeathering sessionFlat 2 1 7 = 7 * calculateElevationFactor 100 ∧
      (weatheredGrid sessionFlat 50).elevationData 2 1 =
        100 - 50 * calculateTotalWeatheringRate sessionFlat * calculateElevationFactor 100 :=
  ⟨(C3_flat_uniform_loss sessionFlat 100 fun _ _ => rfl).1 1 1,
    (C3_flat_uniform_loss sessionFlat 100 fun _ _ => rfl).2.1 2 1 7,
    (C3_flat_uniform_loss sessionFlat 100 fun _ _ => rfl).2.2 50 1 2 (by decide) (by decide)⟩

/-- C9: for every interior cell of a grid with positive cell size, the code's
aspect from raw centered differences equals the spec's aspect from the same
differences divided by `2 * cellSize` — `atan2` is invariant under scaling
both arguments by the common positive factor. -/
theorem C9_aspect_refines_spec (s : WeatheringMapState) (x y : ℕ)
    (hx0 : ¬x = 0) (hy0 : ¬y = 0) (hxw : ¬x = s.datasets.elevation.width - 1)
    (hyh : ¬y = s.datasets.elevation.height - 1)
    (hc : 0 < s.datasets.elevation.cellSize) :
    calculateAspect s x y = specAspectRadians s x y := by
  have hedge : ¬(x = 0 ∨ y = 0 ∨ x = s.datasets.elevation.width - 1 ∨
      y = s.datasets.elevation.height - 1) := by tauto
  simp only [calculateAspect, specAspectRadians, if_neg hedge, atan2]
  have h2c : 0 < 2 * s.datasets.elevation.cellSize := by linarith
  have hmk :
      (⟨(s.datasets.elevation.elevationData y (x + 1) -
            s.datasets.elevation.elevationData y (x - 1)) /
          (2 * s.datasets.elevation.cellSize),
        -((s.datasets.elevation.elevationData (y + 1) x -
            s.datasets.elevation.elevationData (y - 1) x) /
          (2 * s.datasets.elevation.cellSize))⟩ : ℂ) =
      (((2 * s.datasets.elevation.cellSize)⁻¹ : ℝ) : ℂ) *
        ⟨s.datasets.elevation.elevationData y (x + 1) -
            s.datasets.elevation.elevationData y (x - 1),
          -(s.datasets.elevation.elevationData (y + 1) x -
            s.datasets.elevation.elevationData (y - 1) x)⟩ := by
    apply Complex.ext <;> simp [Complex.mul_re, Complex.mul_im] <;> ring
  rw [hmk, Complex.arg_real_mul _ (inv_pos.mpr h2c)]

/-- Witness for C9 at the interior cell (1, 1) of a concrete 3×3 session with
cell size 2. -/
theorem C9_witness : calculateAspect sessionAspect 1 1 = specAspectRadians sessionAspect 1 1 :=
  C9_aspect_refines_spec sessionAspect 1 1 (by decide) (by decide) (by decide) (by decide)
    (by norm_num [sessionAspect])

/-- C10: the weathering loop's per-cell modifiers (slope, aspect, elevation
factor) are read from the session's base grid, never from the clone being
mutated, so each in-range cell's projected value is
`clone value - calculateCellWeathering(session, x, y, intensity)` and the
result of the loop is independent of the order in which the cells are
visited. -/
theorem C10_weathering_order_independent (s : WeatheringMapState) (intensity : ℝ)
    (m : TerrainModel) (cells : List (ℕ × ℕ))
    (hperm : cells.Perm (cellsXY m.width m.height)) (x y : ℕ) :
    (applyWeatheringOn cells s intensity m).elevationData y x =
        (applyWeatheringOn (cellsXY m.width m.height) s intensity m).elevationData y x ∧
      (x < m.width → y < m.height →
        (applyWeatheringOn cells s intensity m).elevationData y x =
          m.elevationData y x - calculateCellWeathering s x y intensity) := by
  have hnd : cells.Nodup := hperm.nodup_iff.mpr (nodup_cellsXY _ _)
  by_cases hin : x < m.width ∧ y < m.height
  · have hm1 : (x, y) ∈ cells := hperm.mem_iff.mpr (mem_cellsXY.mpr hin)
    have h1 : (applyWeatheringOn cells s intensity m).elevationData y x =
        m.elevationData y x - calculateCellWeathering s x y intensity :=
      forEachCell_elevationData_of_mem _ _ _ hnd hm1
    have h2 : (applyWeatheringOn (cellsXY m.width m.height) s intensity m).elevationData y x =
        m.elevationData y x - calculateCellWeathering s x y intensity :=
      forEachCell_elevationData_of_mem _ _ _ (nodup_cellsXY _ _) (mem_cellsXY.mpr hin)
    exact ⟨h1.trans h2.symm, fun _ _ => h1⟩
  · have hn1 : (x, y) ∉ cells := fun hm => hin (mem_cellsXY.mp (hperm.mem_iff.mp hm))
    have h1 : (applyWeatheringOn cells s intensity m).elevationData y x =
        m.elevationData y x :=
      forEachCell_elevationData_of_not_mem _ _ _ hn1
    have h2 : (applyWeatheringOn (cellsXY m.width m.height) s intensity m).elevationData y x =
        m.elevationData y x :=
      forEachCell_elevationData_of_not_mem _ _ _ fun hm => hin (mem_cellsXY.mp hm)
    exact ⟨h1.trans h2.symm, fun hx hy => absurd ⟨hx, hy⟩ hin⟩

/-- Witness for C10: visiting the 3×3 cells in reverse order gives the same
value at cell (1, 1) as the source's order, and the in-range value is the
clone's value minus the session-based loss. -/
theorem C10_witness :
    ((applyWeatheringOn ((cellsXY 3 3).reverse) sessionCx 5 baseGridCx).elevationData 1 1 =
        (applyWeatheringOn (cellsXY 3 3) sessionCx 5 baseGridCx).elevationData 1 1) ∧
      (1 < baseGridCx.width → 1 < baseGridCx.height →
        (applyWeatheringOn ((cellsXY 3 3).reverse) sessionCx 5 baseGridCx).elevationData 1 1 =
          baseGridCx.elevationData 1 1 - calculateCellWeathering sessionCx 1 1 5) :=
  C10_weathering_order_independent sessionCx 5 baseGridCx ((cellsXY 3 3).reverse)
    (List.reverse_perm _) 1 1

theorem writeCell_buffers_ne (st : Store) (ref : TerrainRef) (x y : ℕ) (v : ℝ) {id : ℕ}
    (h : id ≠ ref.bufferId) :
    (writeCell st ref x y v).buffers id = st.buffers id := by
  simp [writeCell, h]

theorem forEachCellS_buffers_ne (cells : List (ℕ × ℕ)) (ref : TerrainRef)
    (step : Store → ℕ → ℕ → ℝ → ℝ) (st : Store) {id : ℕ} (h : id ≠ ref.bufferId) :
    (forEachCellS cells ref step st).buffers id = st.buffers id := by
  induction cells generalizing st with
  | nil => rfl
  | cons c rest ih =>
    rw [show forEachCellS (c :: rest) ref step st =
      forEachCellS rest ref step
        (writeCell st ref c.1 c.2 (step st c.1 c.2 (readCell st ref c.2 c.1))) from rfl]
    rw [ih _]
    exact writeCell_buffers_ne st ref c.1 c.2 _ h

theorem forEachCellS_nextId (cells : List (ℕ × ℕ)) (ref : TerrainRef)
    (step : Store → ℕ → ℕ → ℝ → ℝ) (st : Store) :
    (forEachCellS cells ref step st).nextId = st.nextId := by
  induction cells generalizing st with
  | nil => rfl
  | cons c rest ih =>
    rw [show forEachCellS (c :: rest) ref step st =
      forEachCellS rest ref step
        (writeCell st ref c.1 c.2 (step st c.1 c.2 (readCell st ref c.2 c.1))) from rfl]
    rw [ih _]
    rfl

theorem cloneTerrainModelS_buffers_ne (st : Store) (orig : TerrainRef) {id : ℕ}
    (h : id ≠ st.nextId) :
    (cloneTerrainModelS st orig).2.buffers id = st.buffers id := by
  simp [cloneTerrainModelS, h]

theorem projectWeatheringS_frame (rates : WeatheringRates) (baseRef : TerrainRef)
    (rand : ℕ → ℕ → ℕ) (years : ℝ) (st : Store) {id : ℕ} (h : id ≠ st.nextId) :
    (projectWeatheringS rates baseRef rand years st).2.buffers id = st.buffers id := by
  have h2 : id ≠ (cloneTerrainModelS st baseRef).1.bufferId := h
  simp only [projectWeatheringS]
  rw [forEachCellS_buffers_ne _ _ _ _ h2, forEachCellS_buffers_ne _ _ _ _ h2,
    forEachCellS_buffers_ne _ _ _ _ h2]
  exact cloneTerrainModelS_buffers_ne st baseRef h

theorem projectWeatheringS_nextId (rates : WeatheringRates) (baseRef : TerrainRef)
    (rand : ℕ → ℕ → ℕ) (years : ℝ) (st : Store) :
    (projectWeatheringS rates baseRef rand years st).2.nextId = st.nextId + 1 := by
  simp only [projectWeatheringS]
  rw [forEachCellS_nextId, forEachCellS_nextId, forEachCellS_nextId]
  rfl

theorem generateFold_frame (rates : WeatheringRates) (baseRef : TerrainRef)
    (rand : ℕ → ℕ → ℕ) {id : ℕ} (ts : List ℝ) :
    ∀ (st : Store) (acc : List (ℝ × TerrainRef)), id < st.nextId →
      ((ts.foldl
        (fun acc t =>
          let r := projectWeatheringS rates baseRef rand t acc.2
          (acc.1 ++ [(t, r.1)], r.2))
        (acc, st)).2.buffers id = st.buffers id) := by
  induction ts with
  | nil => intro st acc _; rfl
  | cons t rest ih =>
    intro st acc hlt
    rw [List.foldl_cons]
    have hlt2 : id < (projectWeatheringS rates baseRef rand t st).2.nextId := by
      rw [projectWeatheringS_nextId]
      exact Nat.lt_succ_of_lt hlt
    exact (ih _ _ hlt2).trans
      (projectWeatheringS_frame rates baseRef rand t st (Nat.ne_of_lt hlt))

/-- C6: after `projectWeathering` (and after `generateWeatheringModels`) the
original loaded elevation dataset is unchanged — every elevation value in the
base dataset's buffer is exactly what it was before — because the projection
clones the base grid into a fresh buffer before any mutation and every
in-place write targets the clone's buffer, which is distinct from the base's. -/
theorem C6_original_dataset_never_mutated (rates : WeatheringRates) (baseRef : TerrainRef)
    (rand : ℕ → ℕ → ℕ) (years : ℝ) (st : Store) (h : baseRef.bufferId < st.nextId) :
    (projectWeatheringS rates baseRef rand years st).2.buffers baseRef.bufferId =
        st.buffers baseRef.bufferId ∧
      (projectWeatheringS rates baseRef rand years st).1.bufferId ≠ baseRef.bufferId ∧
      (generateWeatheringModelsS rates baseRef rand years st).2.buffers baseRef.bufferId =
        st.buffers baseRef.bufferId :=
  ⟨projectWeatheringS_frame rates baseRef rand years st (Nat.ne_of_lt h),
    fun heq => absurd heq.symm (Nat.ne_of_lt h),
    generateFold_frame rates baseRef rand (determineTimeSteps years) st [] h⟩

/-- Witness for C6 at a concrete one-buffer store. -/
theorem C6_witness :
    (projectWeatheringS ratesW baseRefW randZero 10 storeW).2.buffers baseRefW.bufferId =
        storeW.buffers baseRefW.bufferId ∧
      (projectWeatheringS ratesW baseRefW randZero 10 storeW).1.bufferId ≠ baseRefW.bufferId ∧
      (generateWeatheringModelsS ratesW baseRefW randZero 10 storeW).2.buffers
          baseRefW.bufferId =
        storeW.buffers baseRefW.bufferId :=
  C6_original_dataset_never_mutated ratesW baseRefW randZero 10 storeW (by decide)

/-- C1 (amended): in `simulateErosion` the erosion pass runs fully before the
deposition pass and slope is recomputed per cell in each pass, but both passes
compute every cell's slope from the session's original base elevation dataset
(`this.datasets.elevation`), not from the elevation state of the terrain model
as it stands at the pass's start; hence each in-range cell ends at its
starting value minus the erosion amount, plus the clamped deposition amount
exactly when the BASE-grid slope is below 10. -/
theorem C1_erosion_then_deposition_base_slope (s : WeatheringMapState) (t : TerrainModel)
    (rand : ℕ → ℕ → ℕ) (years : ℝ) {x y : ℕ} (hx : x < t.width) (hy : y < t.height) :
    simulateErosion s t rand years =
        applyDeposition s (applyErosion s t (fun _ _ => 1) years) (fun _ _ => 1) years ∧
      (simulateErosion s t rand years).elevationData y x =
        (if calculateSlope s x y < 10 then
          (t.elevationData y x - 0.00005 * years * Real.sqrt 1 * (calculateSlope s x y / 45)) +
            max 0 (0.00002 * years * Real.sqrt 1 * (1 - calculateSlope s x y / 90))
        else
          t.elevationData y x - 0.00005 * years * Real.sqrt 1 * (calculateSlope s x y / 45)) :=
  ⟨simulateErosion_eq s t rand years, simulateErosion_elevationData s t rand years hx hy⟩

/-- Witness for the amended C1 at a concrete session, grid and cell. -/
theorem C1_amended_witness :
    simulateErosion sessionCx baseGridCx randZero 1 =
        applyDeposition sessionCx (applyErosion sessionCx baseGridCx (fun _ _ => 1) 1)
          (fun _ _ => 1) 1 ∧
      (simulateErosion sessionCx baseGridCx randZero 1).elevationData 1 1 =
        (if calculateSlope sessionCx 1 1 < 10 then
          (baseGridCx.elevationData 1 1 -
              0.00005 * 1 * Real.sqrt 1 * (calculateSlope sessionCx 1 1 / 45)) +
            max 0 (0.00002 * 1 * Real.sqrt 1 * (1 - calculateSlope sessionCx 1 1 / 90))
        else
          baseGridCx.elevationData 1 1 -
            0.00005 * 1 * Real.sqrt 1 * (calculateSlope sessionCx 1 1 / 45)) :=
  C1_erosion_then_deposition_base_slope sessionCx baseGridCx randZero 1 (by decide) (by decide)

theorem srateCx : calculateTotalWeatheringRate sessionCx = 1 := by
  norm_num [calculateTotalWeatheringRate, sessionCx]

theorem slopeCx11 : calculateSlope sessionCx 1 1 = Real.arctan 1250 * (180 / Real.pi) := by
  simp only [calculateSlope]
  have hcond : ¬((1:ℕ) = 0 ∨ (1:ℕ) = 0 ∨ 1 = sessionCx.datasets.elevation.width - 1 ∨
      1 = sessionCx.datasets.elevation.height - 1) := by decide
  rw [if_neg hcond]
  have e12 : sessionCx.datasets.elevation.elevationData 1 (1 + 1) = 2500 := by
    norm_num [sessionCx, baseGridCx]
  have e10 : sessionCx.datasets.elevation.elevationData 1 (1 - 1) = 0 := by
    norm_num [sessionCx, baseGridCx]
  have e21 : sessionCx.datasets.elevation.elevationData (1 + 1) 1 = 0 := by
    norm_num [sessionCx, baseGridCx]
  have e01 : sessionCx.datasets.elevation.elevationData (1 - 1) 1 = 0 := by
    norm_num [sessionCx, baseGridCx]
  have ecs : sessionCx.datasets.elevation.cellSize = 1 := rfl
  rw [e12, e10, e21, e01, ecs]
  norm_num
  refine Or.inl ?_
  rw [show (1562500:ℝ) = 1250 * 1250 by norm_num,
    Real.sqrt_mul_self (by norm_num : (0:ℝ) ≤ 1250)]

theorem slopeCx11_ge : (45:ℝ) ≤ calculateSlope sessionCx 1 1 := by
  rw [slopeCx11]
  have h1 : Real.arctan 1 ≤ Real.arctan 1250 := Real.arctan_strictMono.monotone (by norm_num)
  rw [Real.arctan_one] at h1
  have key : Real.pi / 4 * (180 / Real.pi) = 45 := by
    field_simp
    ring
  calc (45:ℝ) = Real.pi / 4 * (180 / Real.pi) := key.symm
    _ ≤ Real.arctan 1250 * (180 / Real.pi) :=
      mul_le_mul_of_nonneg_right h1 (div_nonneg (by norm_num) Real.pi_pos.le)

theorem aspectCx11 : calculateAspect sessionCx 1 1 = 0 := by
  simp only [calculateAspect]
  have hcond : ¬((1:ℕ) = 0 ∨ (1:ℕ) = 0 ∨ 1 = sessionCx.datasets.elevation.width - 1 ∨
      1 = sessionCx.datasets.elevation.height - 1) := by decide
  rw [if_neg hcond]
  have e12 : sessionCx.datasets.elevation.elevationData 1 (1 + 1) = 2500 := by
    norm_num [sessionCx, baseGridCx]
  have e10 : sessionCx.datasets.elevation.elevationData 1 (1 - 1) = 0 := by
    norm_num [sessionCx, baseGridCx]
  have e21 : sessionCx.datasets.elevation.elevationData (1 + 1) 1 = 0 := by
    norm_num [sessionCx, baseGridCx]
  have e01 : sessionCx.datasets.elevation.elevationData (1 - 1) 1 = 0 := by
    norm_num [sessionCx, baseGridCx]
  rw [e12, e10, e21, e01, atan2]
  norm_num
  exact Complex.arg_ofReal_of_nonneg (by norm_num : (0:ℝ) ≤ 2500)

theorem cwCx01 : calculateCellWeathering sessionCx 0 1 5000 = 5000 := by
  simp only [calculateCellWeathering]
  rw [calculateSlope_edge sessionCx 0 1 (by decide), calculateAspect_edge sessionCx 0 1 (by decide)]
  norm_num [Real.sin_zero, sessionCx, baseGridCx, calculateElevationFactor]

theorem cwCx21 : calculateCellWeathering sessionCx 2 1 5000 = 7500 := by
  simp only [calculateCellWeathering]
  rw [calculateSlope_edge sessionCx 2 1 (by decide), calculateAspect_edge sessionCx 2 1 (by decide)]
  norm_num [Real.sin_zero, sessionCx, baseGridCx, calculateElevationFactor]

theorem cwCx10 : calculateCellWeathering sessionCx 1 0 5000 = 5000 := by
  simp only [calculateCellWeathering]
  rw [calculateSlope_edge sessionCx 1 0 (by decide), calculateAspect_edge sessionCx 1 0 (by decide)]
  norm_num [Real.sin_zero, sessionCx, baseGridCx, calculateElevationFactor]

theorem cwCx12 : calculateCellWeathering sessionCx 1 2 5000 = 5000 := by
  simp only [calculateCellWeathering]
  rw [calculateSlope_edge sessionCx 1 2 (by decide), calculateAspect_edge sessionCx 1 2 (by decide)]
  norm_num [Real.sin_zero, sessionCx, baseGridCx, calculateElevationFactor]

theorem cwCx11 : calculateCellWeathering sessionCx 1 1 5000 =
    5000 * (1 + Real.arctan 1250 * (180 / Real.pi) / 45) := by
  simp only [calculateCellWeathering]
  rw [slopeCx11, aspectCx11]
  norm_num [Real.sin_zero, sessionCx, baseGridCx, calculateElevationFactor]

theorem wCx_width : (weatheredGrid sessionCx 5000).width = 3 :=
  weatheredGrid_width sessionCx 5000

theorem wCx_height : (weatheredGrid sessionCx 5000).height = 3 :=
  weatheredGrid_height sessionCx 5000

theorem wCx_cellSize : (weatheredGrid sessionCx 5000).cellSize = 1 :=
  weatheredGrid_cellSize sessionCx 5000

theorem wCx10 : (weatheredGrid sessionCx 5000).elevationData 1 0 = -5000 := by
  rw [weatheredGrid_elevationData sessionCx 5000 (by decide) (by decide), srateCx,
    show (5000:ℝ) * 1 = 5000 by norm_num, cwCx01]
  norm_num [sessionCx, baseGridCx]

theorem wCx12 : (weatheredGrid sessionCx 5000).elevationData 1 2 = -5000 := by
  rw [weatheredGrid_elevationData sessionCx 5000 (by decide) (by decide), srateCx,
    show (5000:ℝ) * 1 = 5000 by norm_num, cwCx21]
  norm_num [sessionCx, baseGridCx]

theorem wCx01 : (weatheredGrid sessionCx 5000).elevationData 0 1 = -5000 := by
  rw [weatheredGrid_elevationData sessionCx 5000 (by decide) (by decide), srateCx,
    show (5000:ℝ) * 1 = 5000 by norm_num, cwCx10]
  norm_num [sessionCx, baseGridCx]

theorem wCx21 : (weatheredGrid sessionCx 5000).elevationData 2 1 = -5000 := by
  rw [weatheredGrid_elevationData sessionCx 5000 (by decide) (by decide), srateCx,
    show (5000:ℝ) * 1 = 5000 by norm_num, cwCx12]
  norm_num [sessionCx, baseGridCx]

theorem slopeOfModel_wCx11 : calculateSlopeOfModel (weatheredGrid sessionCx 5000) 1 1 = 0 := by
  simp only [calculateSlopeOfModel]
  have hcond : ¬((1:ℕ) = 0 ∨ (1:ℕ) = 0 ∨ 1 = (weatheredGrid sessionCx 5000).width - 1 ∨
      1 = (weatheredGrid sessionCx 5000).height - 1) := by
    rw [wCx_width, wCx_height]
    decide
  rw [if_neg hcond]
  have h2 : (1:ℕ) + 1 = 2 := rfl
  have h0 : (1:ℕ) - 1 = 0 := rfl
  rw [h2, h0, wCx12, wCx10, wCx21, wCx01, wCx_cellSize]
  norm_num [Real.sqrt_zero, Real.arctan_zero]

theorem wCx11 : (weatheredGrid sessionCx 5000).elevationData 1 1 =
    -(5000 * (1 + Real.arctan 1250 * (180 / Real.pi) / 45)) := by
  rw [weatheredGrid_elevationData sessionCx 5000 (by decide) (by decide), srateCx,
    show (5000:ℝ) * 1 = 5000 by norm_num, cwCx11]
  norm_num [sessionCx, baseGridCx]

theorem eCx_width :
    (applyErosionPassStartSlope (weatheredGrid sessionCx 5000) (fun _ _ => 1) 5000).width = 3 :=
  (applyErosionPassStartSlope_width _ _ _).trans wCx_width

theorem eCx_height :
    (applyErosionPassStartSlope (weatheredGrid sessionCx 5000) (fun _ _ => 1) 5000).height = 3 :=
  (applyErosionPassStartSlope_height _ _ _).trans wCx_height

theorem eCx_cellSize :
    (applyErosionPassStartSlope (weatheredGrid sessionCx 5000)
      (fun _ _ => 1) 5000).cellSize = 1 :=
  (applyErosionPassStartSlope_cellSize _ _ _).trans wCx_cellSize

theorem eCx10 :
    (applyErosionPassStartSlope (weatheredGrid sessionCx 5000)
      (fun _ _ => 1) 5000).elevationData 1 0 = -5000 := by
  rw [applyErosionPassStartSlope_elevationData _ _ _ (by rw [wCx_width]; norm_num)
    (by rw [wCx_height]; norm_num)]
  rw [calculateSlopeOfModel_edge _ 0 1 (Or.inl rfl), wCx10]
  norm_num

theorem eCx12 :
    (applyErosionPassStartSlope (weatheredGrid sessionCx 5000)
      (fun _ _ => 1) 5000).elevationData 1 2 = -5000 := by
  rw [applyErosionPassStartSlope_elevationData _ _ _ (by rw [wCx_width]; norm_num)
    (by rw [wCx_height]; norm_num)]
  rw [calculateSlopeOfModel_edge _ 2 1 (Or.inr (Or.inr (Or.inl (by rw [wCx_width])))), wCx12]
  norm_num

theorem eCx01 :
    (applyErosionPassStartSlope (weatheredGrid sessionCx 5000)
      (fun _ _ => 1) 5000).elevationData 0 1 = -5000 := by
  rw [applyErosionPassStartSlope_elevationData _ _ _ (by rw [wCx_width]; norm_num)
    (by rw [wCx_height]; norm_num)]
  rw [calculateSlopeOfModel_edge _ 1 0 (Or.inr (Or.inl rfl)), wCx01]
  norm_num

theorem eCx21 :
    (applyErosionPassStartSlope (weatheredGrid sessionCx 5000)
      (fun _ _ => 1) 5000).elevationData 2 1 = -5000 := by
  rw [applyErosionPassStartSlope_elevationData _ _ _ (by rw [wCx_width]; norm_num)
    (by rw [wCx_height]; norm_num)]
  rw [calculateSlopeOfModel_edge _ 1 2 (Or.inr (Or.inr (Or.inr (by rw [wCx_height])))), wCx21]
  norm_num

theorem eCx11 :
    (applyErosionPassStartSlope (weatheredGrid sessionCx 5000)
      (fun _ _ => 1) 5000).elevationData 1 1 =
    (weatheredGrid sessionCx 5000).elevationData 1 1 := by
  rw [applyErosionPassStartSlope_elevationData _ _ _ (by rw [wCx_width]; norm_num)
    (by rw [wCx_height]; norm_num)]
  rw [slopeOfModel_wCx11]
  norm_num

theorem slopeOfModel_eCx11 :
    calculateSlopeOfModel
      (applyErosionPassStartSlope (weatheredGrid sessionCx 5000) (fun _ _ => 1) 5000) 1 1 =
      0 := by
  simp only [calculateSlopeOfModel]
  have hcond : ¬((1:ℕ) = 0 ∨ (1:ℕ) = 0 ∨
      1 = (applyErosionPassStartSlope (weatheredGrid sessionCx 5000)
        (fun _ _ => 1) 5000).width - 1 ∨
      1 = (applyErosionPassStartSlope (weatheredGrid sessionCx 5000)
        (fun _ _ => 1) 5000).height - 1) := by
    rw [eCx_width, eCx_height]
    decide
  rw [if_neg hcond]
  have h2 : (1:ℕ) + 1 = 2 := rfl
  have h0 : (1:ℕ) - 1 = 0 := rfl
  rw [h2, h0, eCx12, eCx10, eCx21, eCx01, eCx_cellSize]
  norm_num [Real.sqrt_zero, Real.arctan_zero]

/-- C1 counterexample: on the concrete session `sessionCx` with 5000 years,
the code's `simulateErosion` (both passes reading slope from the session's
base elevation dataset) and the claim's reading (each pass reading slope from
the elevation state as it stands at that pass's start) produce different
elevations at cell (1, 1): the base-grid slope there is about 90°, so the code
erodes strongly and skips deposition, while the pass-start grids are locally
flat at that cell, so the claim's reading erodes nothing and deposits. -/
theorem C1_counterexample :
    (projectWeathering sessionCx randZero 5000).elevationData 1 1 ≠
      (projectWeatheringPassStartSlope sessionCx randZero 5000).elevationData 1 1 := by
  have hnot : ¬(calculateSlope sessionCx 1 1 < 10) := by
    have h := slopeCx11_ge
    linarith
  have hcode : (projectWeathering sessionCx randZero 5000).elevationData 1 1 =
      (weatheredGrid sessionCx 5000).elevationData 1 1 -
        0.00005 * 5000 * Real.sqrt 1 * (calculateSlope sessionCx 1 1 / 45) := by
    rw [projectWeathering_eq]
    rw [simulateErosion_elevationData sessionCx _ randZero 5000 (by rw [wCx_width]; norm_num)
      (by rw [wCx_height]; norm_num)]
    rw [if_neg hnot]
  have hclaim : (projectWeatheringPassStartSlope sessionCx randZero 5000).elevationData 1 1 =
      (weatheredGrid sessionCx 5000).elevationData 1 1 + 0.1 := by
    rw [projectWeatheringPassStartSlope_eq, simulateErosionPassStartSlope_eq]
    rw [applyDepositionPassStartSlope_elevationData _ _ _ (by rw [eCx_width]; norm_num)
      (by rw [eCx_height]; norm_num)]
    rw [slopeOfModel_eCx11]
    rw [if_pos (by norm_num : (0:ℝ) < 10)]
    rw [eCx11]
    rw [show (0.00002:ℝ) * 5000 * Real.sqrt 1 * (1 - 0 / 90) = 0.1 by
      rw [Real.sqrt_one]; norm_num]
    rw [show max (0:ℝ) 0.1 = 0.1 from max_eq_right (by norm_num)]
  intro heq
  rw [hcode, hclaim] at heq
  have hA : 0 ≤ 0.00005 * 5000 * Real.sqrt 1 * (calculateSlope sessionCx 1 1 / 45) :=
    mul_nonneg (mul_nonneg (by norm_num) (Real.sqrt_nonneg 1))
      (div_nonneg (calculateSlope_nonneg sessionCx 1 1) (by norm_num))
  linarith
